import Mathlib

/-!
Shallow embedding of the rAAwr infection-game engine (Go sources:
`main.go`, `animals/yellowstone_evolution.go`, and the unnamed Fyne GUI
variant).  Go float64 probabilities are modelled as rationals, the
process-global uniform draw `rand.Float64()` is modelled as an explicit
parameter `r : ℚ`, and wall-clock times as natural-number seconds.
-/

namespace Rawr

/-- The Animal entity shared by every variant (engine-relevant fields;
mobility / intelligence / location are presentation metadata). -/
structure Animal where
  name : String
  level : Nat
  contacts : List String
  infected : Bool
  infectionRate : ℚ
  redHerring : Bool
deriving DecidableEq

/-- The Virus record: `strength` multiplies every infection chance,
`modes` is descriptive metadata. -/
structure Virus where
  modes : List String
  strength : ℚ
deriving DecidableEq

/-- The Stats record of the stats-tracking variants: three counters plus
the wall-clock start mark (seconds). -/
structure Stats where
  attempts : Nat
  sameLevelInfections : Nat
  nextLevelInfections : Nat
  startTime : Nat
deriving DecidableEq

/-- Result of the console stats variant `attemptInfection` (main.go, third
program): the returned player host and win flag, together with the
values the Go code mutates through pointers (target and stats) and the
printed success/failure outcome. -/
structure AttemptResult where
  player : Animal
  won : Bool
  target : Animal
  stats : Stats
  success : Bool
deriving DecidableEq

/-- Console stats variant `attemptInfection` (main.go third program):
`stats.Attempts++`; success iff `r < target.InfectionRate * v.Strength`;
on success mark target infected, bump the same-level counter when levels
are equal, bump the next-level counter when the target is exactly one
level above, migrate the player (and test the apex win) whenever the
target level is strictly above the player level. -/
def attemptInfection (player target : Animal) (virus : Virus) (stats : Stats)
    (maxLevel : Nat) (r : ℚ) : AttemptResult :=
  let chance := target.infectionRate * virus.strength
  let stats1 : Stats := { stats with attempts := stats.attempts + 1 }
  if r < chance then
    let target1 : Animal := { target with infected := true }
    let stats2 : Stats :=
      if target.level == player.level then
        { stats1 with sameLevelInfections := stats1.sameLevelInfections + 1 }
      else if target.level == player.level + 1 then
        { stats1 with nextLevelInfections := stats1.nextLevelInfections + 1 }
      else stats1
    if player.level < target.level then
      { player := target1, won := target.level == maxLevel,
        target := target1, stats := stats2, success := true }
    else
      { player := player, won := false, target := target1, stats := stats2,
        success := true }
  else
    { player := player, won := false, target := target, stats := stats1,
      success := false }

/-- Graphical variant `attemptInfection`
(animals/yellowstone_evolution.go): increments attempts, marks the
target infected and bumps one counter on success, and returns
(target value, stats value, success flag); player migration is done by
the caller. -/
def attemptInfectionEvo (player target : Animal) (virus : Virus)
    (stats : Stats) (r : ℚ) : Animal × Stats × Bool :=
  let chance := target.infectionRate * virus.strength
  let stats1 : Stats := { stats with attempts := stats.attempts + 1 }
  if r < chance then
    let target1 : Animal := { target with infected := true }
    let stats2 : Stats :=
      if target.level == player.level then
        { stats1 with sameLevelInfections := stats1.sameLevelInfections + 1 }
      else if target.level == player.level + 1 then
        { stats1 with nextLevelInfections := stats1.nextLevelInfections + 1 }
      else stats1
    (target1, stats2, true)
  else
    (target, stats1, false)

/-- Graphical variant `getValidTargets`
(animals/yellowstone_evolution.go): skip infected or red-herring hosts,
keep those at the player level or exactly one above. -/
def getValidTargets (player : Animal) (animals : List Animal) : List Animal :=
  animals.filter (fun a =>
    !(a.infected || a.redHerring)
      && (a.level == player.level || a.level == player.level + 1))

/-- Console stats variant `getValidTargets` (main.go third program):
skip infected hosts, keep names of hosts at the player level or exactly
one above.  Red herrings are NOT filtered here. -/
def getValidTargetsConsole (player : Animal) (animals : List Animal) :
    List String :=
  (animals.filter (fun a =>
    !a.infected && (a.level == player.level || a.level == player.level + 1))).map
    Animal.name

/-- The card filter of the unnamed GUI variant createGameScreen: a card
with an INFECT button exists for `a` iff `a` is not infected and its
level is the player level or one above (red herrings are not skipped). -/
def eligibleCard (player a : Animal) : Bool :=
  !(a.infected || (a.level != player.level && a.level != player.level + 1))

/-- Console stats variant `calculateScore` (identical formula in all
three stats variants): sequential additions and subtractions from 1000,
then a clamp at zero.  `secs` is the nonnegative whole-second elapsed
time, so Go integer division `secs / 2` is Nat division. -/
def calculateScore (stats : Stats) (secs : Nat) : ℤ :=
  let score : ℤ := 1000
  let score := score + (stats.nextLevelInfections : ℤ) * 200
  let score := score - (stats.sameLevelInfections : ℤ) * 100
  let score := score - (stats.attempts : ℤ) * 10
  let score := score - ((secs / 2 : Nat) : ℤ)
  if score < 0 then 0 else score

/-- Outcome of one infection interaction, as surfaced by the GUI
dialogs: success, resisted, or red-herring block. -/
inductive Outcome
  | Success
  | Failure
  | Blocked
deriving DecidableEq

/-- Phase of the unnamed GUI variant, identified with the screen being
shown: starter selection, the game screen, or the terminal win screen. -/
inductive Phase
  | SelectingStarter
  | Playing
  | Won
deriving DecidableEq

/-- GameState of the unnamed GUI variant (engine-relevant fields). -/
structure GameState where
  animals : List Animal
  playerName : String
  maxLevel : Nat
  currentDay : Nat
  virus : Virus
  stats : Stats
  phase : Phase
deriving DecidableEq

/-- Roster lookup by name (Go `state.animals[name]`, modelled on a
list). -/
def findAnimal (animals : List Animal) (name : String) : Option Animal :=
  animals.find? (fun a => a.name == name)

/-- In-place mutation of the roster entry named `name` (Go writes
through the map pointer). -/
def updateAnimal (animals : List Animal) (name : String)
    (f : Animal → Animal) : List Animal :=
  animals.map (fun a => if a.name == name then f a else a)

/-- Go `a.Infected = true`. -/
def markInfected (a : Animal) : Animal :=
  { a with infected := true }

/-- The INFECT button handler of the unnamed GUI variant
createGameScreen, with `player` and `t` the animals the closure
captured: `Attempts++` first; a red herring shows a dialog and returns
(Blocked); otherwise success iff `r < t.InfectionRate * strength`, and
on success `t.Infected = true`, `currentDay++`, one counter bump
(next-level when strictly above, else same-level), `playerName = t.Name`
and the win screen when `t.Level == maxLevel`. -/
def infectHandler (s : GameState) (player t : Animal) (r : ℚ) :
    GameState × Outcome :=
  let sDone : GameState :=
    { s with stats := { s.stats with attempts := s.stats.attempts + 1 } }
  if t.redHerring then
    (sDone, Outcome.Blocked)
  else if r < t.infectionRate * s.virus.strength then
    let stats2 : Stats :=
      if player.level < t.level then
        { s.stats with attempts := s.stats.attempts + 1,
                       nextLevelInfections := s.stats.nextLevelInfections + 1 }
      else
        { s.stats with attempts := s.stats.attempts + 1,
                       sameLevelInfections := s.stats.sameLevelInfections + 1 }
    ({ s with
        animals := updateAnimal s.animals t.name markInfected,
        currentDay := s.currentDay + 1,
        stats := stats2,
        playerName := t.name,
        phase := if t.level == s.maxLevel then Phase.Won else Phase.Playing },
      Outcome.Success)
  else
    (sDone, Outcome.Failure)

/-- The Infect button handler of the first graphical variant
createGameScreen (animals/yellowstone_evolution.go), with `player` and
`t` the animals the closure captured: it calls attemptInfectionEvo
(which writes the target and stats through pointers), migrates the
player only when `t.Level > player.Level` (then checks
`t.Level == gameState.maxLevel` and switches to the win screen,
returning before the day increment), and otherwise advances the day;
on a same-level success the player host is left alone.  Returns the
new state and the success flag. -/
def infectButtonEvo (g : GameState) (player t : Animal) (r : ℚ) :
    GameState × Bool :=
  let res := attemptInfectionEvo player t g.virus g.stats r
  let g1 : GameState := { g with
    animals := updateAnimal g.animals t.name (fun _ => res.1),
    stats := res.2.1 }
  if res.2.2 then
    if player.level < t.level then
      let g2 : GameState := { g1 with playerName := t.name }
      if t.level = g.maxLevel then
        ({ g2 with phase := Phase.Won }, true)
      else
        ({ g2 with currentDay := g.currentDay + 1 }, true)
    else
      ({ g1 with currentDay := g.currentDay + 1 }, true)
  else
    ({ g1 with currentDay := g.currentDay + 1 }, false)

/-- Commands the presentation layer can issue: pick a starter (with the
wall-clock second used for `StartTime`), click INFECT on a target (with
the uniform draw `r`), or let the turn pass. -/
inductive Cmd
  | chooseStarter (name : String) (now : Nat)
  | chooseTarget (name : String) (r : ℚ)
  | skipTurn

/-- One accepted command of the unnamed GUI variant; `none` means the
command is rejected (no such button on the current screen, or the
handler refuses and leaves the state alone).  Starter buttons exist only
for level-1 animals and refuse red herrings; INFECT buttons exist only
for cards passing `eligibleCard`. -/
def step (s : GameState) : Cmd → Option GameState
  | Cmd.chooseStarter name now =>
    if s.phase = Phase.SelectingStarter then
      match findAnimal s.animals name with
      | some a =>
        if a.level = 1 then
          if a.redHerring then none
          else
            some { s with
              playerName := name,
              animals := updateAnimal s.animals name markInfected,
              stats := { s.stats with startTime := now },
              phase := Phase.Playing }
        else none
      | none => none
    else none
  | Cmd.chooseTarget name r =>
    if s.phase = Phase.Playing then
      match findAnimal s.animals s.playerName, findAnimal s.animals name with
      | some player, some t =>
        if eligibleCard player t then some (infectHandler s player t r).1
        else none
      | some _, none => none
      | none, _ => none
    else none
  | Cmd.skipTurn =>
    if s.phase = Phase.Playing then some s else none

/-- A whole run: rejected commands leave the state unchanged. -/
def run (s : GameState) : List Cmd → GameState
  | [] => s
  | c :: cs => run ((step s c).getD s) cs

/-- Roster keys are unique (Go stores animals in a map keyed by name). -/
def namesNodup (s : GameState) : Prop :=
  (s.animals.map Animal.name).Nodup

/-- The red-herring safety invariant: no red herring is ever infected. -/
def redHerringSafe (s : GameState) : Prop :=
  ∀ a ∈ s.animals, a.redHerring = true → a.infected = false

instance (s : GameState) : Decidable (namesNodup s) := by
  unfold namesNodup; infer_instance

instance (s : GameState) : Decidable (redHerringSafe s) := by
  unfold redHerringSafe; infer_instance

/-- Componentwise order on the three counters. -/
def countersLe (s1 s2 : Stats) : Prop :=
  s1.attempts ≤ s2.attempts
    ∧ s1.sameLevelInfections ≤ s2.sameLevelInfections
    ∧ s1.nextLevelInfections ≤ s2.nextLevelInfections

/-! Concrete fixtures used by witnesses and counterexamples. -/

/-- A level-1 starter host with certain infection. -/
def tourist : Animal :=
  { name := "Tourist", level := 1, contacts := [], infected := false,
    infectionRate := 1, redHerring := false }

/-- A second level-1 host, used as a same-level target. -/
def hiker : Animal :=
  { name := "Hiker", level := 1, contacts := [], infected := false,
    infectionRate := 1, redHerring := false }

/-- A level-1 red-herring host. -/
def raven : Animal :=
  { name := "Raven", level := 1, contacts := [], infected := false,
    infectionRate := 1, redHerring := true }

/-- A level-2 host. -/
def bison : Animal :=
  { name := "Bison", level := 2, contacts := [], infected := false,
    infectionRate := 1/2, redHerring := false }

/-- The apex (level-3) host. -/
def wolf : Animal :=
  { name := "Wolf", level := 3, contacts := [], infected := false,
    infectionRate := 1/2, redHerring := false }

/-- A freshly loaded game, before a starter is chosen. -/
def startState : GameState :=
  { animals := [tourist, hiker, raven, bison, wolf],
    playerName := "", maxLevel := 3, currentDay := 1,
    virus := { modes := ["Bite"], strength := 1 },
    stats := { attempts := 0, sameLevelInfections := 0,
               nextLevelInfections := 0, startTime := 0 },
    phase := Phase.SelectingStarter }

/-- The game right after choosing the Tourist as starter. -/
def playState : GameState :=
  { animals := [markInfected tourist, hiker, raven, bison, wolf],
    playerName := "Tourist", maxLevel := 3, currentDay := 1,
    virus := { modes := ["Bite"], strength := 1 },
    stats := { attempts := 0, sameLevelInfections := 0,
               nextLevelInfections := 0, startTime := 5 },
    phase := Phase.Playing }

/-! Claim theorems. -/

/-- C5: for every tracker state and elapsed whole-second time, the score
is `1000 + 200 * nextLevelInfections - 100 * sameLevelInfections
- 10 * attempts - floor(secs / 2)` clamped below at zero, hence always
nonnegative; the example `attempts = 1`, one next-level infection,
elapsed `0s` evaluates to `1190`. -/
theorem score_matches_spec_formula (stats : Stats) (secs : Nat) :
    calculateScore stats secs
      = max (1000 + 200 * (stats.nextLevelInfections : ℤ)
          - 100 * (stats.sameLevelInfections : ℤ)
          - 10 * (stats.attempts : ℤ) - ((secs / 2 : Nat) : ℤ)) 0
    ∧ 0 ≤ calculateScore stats secs
    ∧ calculateScore
        { attempts := 1, sameLevelInfections := 0, nextLevelInfections := 1,
          startTime := 0 } 0 = 1190 := by
  refine ⟨?_, ?_, by simp [calculateScore]⟩ <;>
    simp only [calculateScore] <;> split <;> omega

/-- C6: the score is a pure function of the three counters and the
elapsed time alone: any two tracker states agreeing on the counters
(in particular, differing in `startTime` or anything else) and equal
elapsed times give identical integers. -/
theorem score_pure_deterministic (s1 s2 : Stats) (e1 e2 : Nat)
    (ha : s1.attempts = s2.attempts)
    (hs : s1.sameLevelInfections = s2.sameLevelInfections)
    (hn : s1.nextLevelInfections = s2.nextLevelInfections)
    (he : e1 = e2) :
    calculateScore s1 e1 = calculateScore s2 e2 := by
  simp [calculateScore, ha, hs, hn, he]

/-- C6 witness: two tracker states differing only in `startTime` give
the same score. -/
theorem score_pure_deterministic_witness :
    calculateScore
      { attempts := 3, sameLevelInfections := 1, nextLevelInfections := 1,
        startTime := 0 } 10
    = calculateScore
      { attempts := 3, sameLevelInfections := 1, nextLevelInfections := 1,
        startTime := 99 } 10 :=
  score_pure_deterministic _ _ _ _ rfl rfl rfl rfl

/-- C1: for a non-red-herring (and initially uninfected) target, every
resolver variant computes `chance = infectionRate * strength` with no
clamping and succeeds exactly when the draw `r` is below it; success
marks the target infected, failure leaves it uninfected (the unnamed
GUI variant also leaves the roster untouched on a non-success). -/
theorem resolver_success_iff (player target : Animal) (virus : Virus)
    (stats : Stats) (maxLevel : Nat) (s : GameState) (r : ℚ)
    (hrh : target.redHerring = false) (hinf : target.infected = false) :
    ((attemptInfection player target virus stats maxLevel r).success = true
        ↔ r < target.infectionRate * virus.strength)
    ∧ ((attemptInfection player target virus stats maxLevel r).success = true →
        (attemptInfection player target virus stats maxLevel r).target.infected
          = true)
    ∧ ((attemptInfection player target virus stats maxLevel r).success = false →
        (attemptInfection player target virus stats maxLevel r).target.infected
          = false)
    ∧ ((attemptInfectionEvo player target virus stats r).2.2 = true
        ↔ r < target.infectionRate * virus.strength)
    ∧ ((attemptInfectionEvo player target virus stats r).2.2 = true →
        (attemptInfectionEvo player target virus stats r).1.infected = true)
    ∧ ((attemptInfectionEvo player target virus stats r).2.2 = false →
        (attemptInfectionEvo player target virus stats r).1.infected = false)
    ∧ ((infectHandler s player target r).2 = Outcome.Success
        ↔ r < target.infectionRate * s.virus.strength)
    ∧ ((infectHandler s player target r).2 ≠ Outcome.Success →
        (infectHandler s player target r).1.animals = s.animals) := by
  simp only [attemptInfection, attemptInfectionEvo, infectHandler, hrh,
    Bool.false_eq_true, if_false]
  constructor
  · split <;> (try split) <;> (try split) <;> simp_all
  constructor
  · split <;> (try split) <;> (try split) <;> simp_all
  constructor
  · split <;> (try split) <;> (try split) <;> simp_all
  constructor
  · split <;> (try split) <;> simp_all
  constructor
  · split <;> (try split) <;> simp_all
  constructor
  · split <;> (try split) <;> simp_all
  constructor
  · split <;> simp_all
  · split <;> simp_all

/-- C1 witness: Tourist attempts the Hiker with draw 0 in the console
stats variant and all conjuncts hold at that instance. -/
theorem resolver_success_iff_witness :
    (attemptInfection (markInfected tourist) hiker playState.virus
        playState.stats 3 0).success = true
    ∧ (infectHandler playState (markInfected tourist) hiker 0).2
        = Outcome.Success :=
  ⟨((resolver_success_iff (markInfected tourist) hiker playState.virus
      playState.stats 3 playState 0 (by simp [hiker])
      (by simp [hiker])).1).2 (by simp [hiker, playState]),
   (((((((resolver_success_iff (markInfected tourist) hiker playState.virus
      playState.stats 3 playState 0 (by simp [hiker])
      (by simp [hiker])).2).2).2).2).2).2).1.2 (by simp [hiker, playState])⟩

/-- C10: in the console stats variant, a successful infection of a
target two or more levels above the player still migrates the player to
the (now infected) target and still performs the apex win check, while
incrementing neither sameLevelInfections nor nextLevelInfections;
attempts still increments. -/
theorem console_far_jump_uncounted (player target : Animal) (virus : Virus)
    (stats : Stats) (maxLevel : Nat) (r : ℚ)
    (hsucc : r < target.infectionRate * virus.strength)
    (hfar : player.level + 1 < target.level) :
    (attemptInfection player target virus stats maxLevel r).success = true
    ∧ (attemptInfection player target virus stats maxLevel r).player
        = markInfected target
    ∧ (attemptInfection player target virus stats maxLevel r).stats.sameLevelInfections
        = stats.sameLevelInfections
    ∧ (attemptInfection player target virus stats maxLevel r).stats.nextLevelInfections
        = stats.nextLevelInfections
    ∧ (attemptInfection player target virus stats maxLevel r).stats.attempts
        = stats.attempts + 1
    ∧ (attemptInfection player target virus stats maxLevel r).won
        = (target.level == maxLevel) := by
  have h1 : (target.level == player.level) = false := by
    simp only [beq_eq_false_iff_ne, ne_eq]; omega
  have h2 : (target.level == player.level + 1) = false := by
    simp only [beq_eq_false_iff_ne, ne_eq]; omega
  have h3 : player.level < target.level := by omega
  simp [attemptInfection, if_pos hsucc, h1, h2, h3, markInfected]

/-- C10 witness: Tourist (level 1) successfully infecting the Wolf
(level 3, the apex) with draw 0 migrates the player, wins, and leaves
both infection counters at zero. -/
theorem console_far_jump_uncounted_witness :
    (attemptInfection tourist wolf { modes := ["Bite"], strength := 1 }
        { attempts := 0, sameLevelInfections := 0, nextLevelInfections := 0,
          startTime := 0 } 3 0).player = markInfected wolf
    ∧ (attemptInfection tourist wolf { modes := ["Bite"], strength := 1 }
        { attempts := 0, sameLevelInfections := 0, nextLevelInfections := 0,
          startTime := 0 } 3 0).stats.nextLevelInfections = 0
    ∧ (attemptInfection tourist wolf { modes := ["Bite"], strength := 1 }
        { attempts := 0, sameLevelInfections := 0, nextLevelInfections := 0,
          startTime := 0 } 3 0).won = true := by
  have h := console_far_jump_uncounted tourist wolf
    { modes := ["Bite"], strength := 1 }
    { attempts := 0, sameLevelInfections := 0, nextLevelInfections := 0,
      startTime := 0 } 3 0 (by simp [wolf]) (by simp [tourist, wolf])
  exact ⟨h.2.1, h.2.2.2.1, by rw [h.2.2.2.2.2]; simp [wolf]⟩

/-- The console stats variant chooseTarget accept condition (main.go
third program): the prompt loop hands `t` to the resolver only if its
name is on the valid-target list and `t` is not a red herring — a
red-herring pick shows the fun fact and re-prompts. -/
def chooseTargetAccepts (player t : Animal) (animals : List Animal) :
    Bool :=
  (getValidTargetsConsole player animals).contains t.name && !t.redHerring

/-- C9: an attempt on a red-herring target is impossible under the
level-adjacency eligibility of the graphical variant (red herrings never
appear in getValidTargets) and never reaches the console stats variant
resolver (chooseTarget re-prompts); in the unnamed GUI variant the
INFECT handler returns Blocked for it: the only state change is
`attempts + 1` (target uninfected, player host and day unchanged), and
the result does not depend on the probability draw at all. -/
theorem red_herring_attempt_blocked (s : GameState) (player t : Animal)
    (r r2 : ℚ) (hrh : t.redHerring = true) :
    (infectHandler s player t r).2 = Outcome.Blocked
    ∧ (infectHandler s player t r).1
        = { s with stats := { s.stats with attempts := s.stats.attempts + 1 } }
    ∧ infectHandler s player t r = infectHandler s player t r2
    ∧ t ∉ getValidTargets player s.animals
    ∧ chooseTargetAccepts player t s.animals = false := by
  refine ⟨by simp [infectHandler, hrh], by simp [infectHandler, hrh],
    by simp [infectHandler, hrh], ?_, by simp [chooseTargetAccepts, hrh]⟩
  intro hmem
  have := List.of_mem_filter hmem
  simp [hrh] at this

/-- C9 witness: clicking INFECT on the Raven (a red herring) from the
play state is Blocked, only bumps attempts, ignores the draw, and the
Raven is not a valid target of the graphical variant. -/
theorem red_herring_attempt_blocked_witness :
    (infectHandler playState (markInfected tourist) raven 0).2
        = Outcome.Blocked
    ∧ (infectHandler playState (markInfected tourist) raven 0).1
        = { playState with
              stats := { playState.stats with
                attempts := playState.stats.attempts + 1 } }
    ∧ infectHandler playState (markInfected tourist) raven 0
        = infectHandler playState (markInfected tourist) raven (9/10)
    ∧ raven ∉ getValidTargets (markInfected tourist) playState.animals
    ∧ chooseTargetAccepts (markInfected tourist) raven playState.animals
        = false :=
  red_herring_attempt_blocked playState (markInfected tourist) raven 0 (9/10)
    (by simp [raven])

/-- C3 counterexample: the Raven is uninfected, level-adjacent to the
player, and a red herring, yet it appears in the console stats variant
candidate list and passes the unnamed GUI variant card filter — so under
those two level-adjacency implementations "eligible iff not infected,
not a red herring, and level-adjacent" is false. -/
theorem eligibility_red_herring_cex :
    raven.redHerring = true
    ∧ raven.infected = false
    ∧ raven.level = (markInfected tourist).level
    ∧ "Raven" ∈ getValidTargetsConsole (markInfected tourist)
        playState.animals
    ∧ eligibleCard (markInfected tourist) raven = true := by
  refine ⟨rfl, rfl, rfl, ?_, by simp [eligibleCard, markInfected, tourist,
    raven]⟩
  simp [getValidTargetsConsole, playState, markInfected, tourist, hiker,
    raven, bison, wolf]

/-- C3 amended: contacts never matter, and a host is eligible iff it is
uninfected and level-adjacent — with "not a red herring" an additional
condition only in the graphical variant getValidTargets; the console
stats variant list and the unnamed GUI variant card filter do not
exclude red herrings. -/
theorem eligibility_level_adjacency (player a : Animal)
    (animals : List Animal) :
    (a ∈ getValidTargets player animals ↔
      a ∈ animals ∧ a.infected = false ∧ a.redHerring = false
        ∧ (a.level = player.level ∨ a.level = player.level + 1))
    ∧ (a.name ∈ getValidTargetsConsole player animals ↔
      ∃ b ∈ animals, b.name = a.name ∧ b.infected = false
        ∧ (b.level = player.level ∨ b.level = player.level + 1))
    ∧ (eligibleCard player a = true ↔
      a.infected = false
        ∧ (a.level = player.level ∨ a.level = player.level + 1)) := by
  refine ⟨?_, ?_, ?_⟩
  · simp [getValidTargets, List.mem_filter]
    tauto
  · simp [getValidTargetsConsole, List.mem_map, List.mem_filter]
    constructor
    · rintro ⟨b, ⟨hb, h1, h2⟩, hname⟩
      exact ⟨b, hb, hname, h1, h2⟩
    · rintro ⟨b, hb, hname, h1, h2⟩
      exact ⟨b, ⟨hb, h1, h2⟩, hname⟩
  · simp [eligibleCard]

/-- C2 counterexample: from the play state (player Tourist, level 1),
clicking INFECT on the Hiker (also level 1) with draw 0 is a successful
same-level infection, yet the unnamed GUI variant migrates the player
host to the Hiker instead of leaving it unchanged. -/
theorem same_level_success_migrates_cex :
    hiker.level = (markInfected tourist).level
    ∧ playState.playerName = "Tourist"
    ∧ (step playState (Cmd.chooseTarget "Hiker" 0)).map
        GameState.playerName = some "Hiker"
    ∧ (step playState (Cmd.chooseTarget "Hiker" 0)).map
        (fun s2 => s2.stats.sameLevelInfections) = some 1 := by
  simp [step, playState, findAnimal, eligibleCard, infectHandler,
    updateAnimal, markInfected, tourist, hiker, raven, bison, wolf]

/-- C2 amended: on a successful attempt against a non-red-herring
target, a target exactly one level above yields a next-level increment
with the player migrating to the target, and a same-level target yields
a same-level increment; the player host stays unchanged on same-level
success in the console stats variant (attemptInfection) and the first
graphical variant (infectButtonEvo), but the unnamed GUI variant
(infectHandler) sets the player host to the target on every success,
same-level included. -/
theorem success_classification (player target : Animal) (virus : Virus)
    (stats : Stats) (maxLevel : Nat) (s : GameState) (r : ℚ)
    (hsucc : r < target.infectionRate * virus.strength)
    (hrh : target.redHerring = false)
    (hv : s.virus = virus) :
    (target.level = player.level →
      (attemptInfection player target virus stats maxLevel r).player = player
      ∧ (attemptInfection player target virus stats maxLevel r).stats.sameLevelInfections
          = stats.sameLevelInfections + 1
      ∧ (attemptInfection player target virus stats maxLevel r).stats.nextLevelInfections
          = stats.nextLevelInfections
      ∧ (attemptInfectionEvo player target virus stats r).2.1.sameLevelInfections
          = stats.sameLevelInfections + 1
      ∧ (attemptInfectionEvo player target virus stats r).2.1.nextLevelInfections
          = stats.nextLevelInfections)
    ∧ (target.level = player.level + 1 →
      (attemptInfection player target virus stats maxLevel r).player
          = markInfected target
      ∧ (attemptInfection player target virus stats maxLevel r).stats.nextLevelInfections
          = stats.nextLevelInfections + 1
      ∧ (attemptInfection player target virus stats maxLevel r).stats.sameLevelInfections
          = stats.sameLevelInfections
      ∧ (attemptInfectionEvo player target virus stats r).2.1.nextLevelInfections
          = stats.nextLevelInfections + 1
      ∧ (attemptInfectionEvo player target virus stats r).2.1.sameLevelInfections
          = stats.sameLevelInfections)
    ∧ ((infectHandler s player target r).2 = Outcome.Success)
    ∧ ((infectHandler s player target r).1.playerName = target.name)
    ∧ (target.level = player.level →
        (infectHandler s player target r).1.stats.sameLevelInfections
          = s.stats.sameLevelInfections + 1)
    ∧ (target.level = player.level + 1 →
        (infectHandler s player target r).1.stats.nextLevelInfections
          = s.stats.nextLevelInfections + 1)
    ∧ (target.level = player.level →
        (infectButtonEvo s player target r).1.playerName = s.playerName)
    ∧ (target.level = player.level + 1 →
        (infectButtonEvo s player target r).1.playerName = target.name) := by
  have hs2 : r < target.infectionRate * s.virus.strength := by
    rw [hv]; exact hsucc
  refine ⟨?_, ?_, ?_, ?_, ?_, ?_, ?_, ?_⟩
  · intro hl
    have h1 : (target.level == player.level) = true := by simp [hl]
    have h2 : ¬ player.level < target.level := by omega
    simp [attemptInfection, attemptInfectionEvo, if_pos hsucc, h1, h2]
  · intro hl
    have h1 : (target.level == player.level) = false := by
      simp only [beq_eq_false_iff_ne, ne_eq]; omega
    have h2 : (target.level == player.level + 1) = true := by simp [hl]
    have h3 : player.level < target.level := by omega
    simp [attemptInfection, attemptInfectionEvo, if_pos hsucc, h1, h2, h3,
      markInfected]
  · simp [infectHandler, hrh, if_pos hs2]
  · simp [infectHandler, hrh, if_pos hs2]
  · intro hl
    have h3 : ¬ player.level < target.level := by omega
    simp [infectHandler, hrh, if_pos hs2, h3]
  · intro hl
    have h3 : player.level < target.level := by omega
    simp [infectHandler, hrh, if_pos hs2, h3]
  · intro hl
    have h3 : ¬ player.level < target.level := by omega
    simp [infectButtonEvo, attemptInfectionEvo, if_pos hs2, h3]
  · intro hl
    have h3 : player.level < target.level := by omega
    simp only [infectButtonEvo, attemptInfectionEvo, if_pos hs2, if_pos h3]
    by_cases hmax : target.level = s.maxLevel
    · simp [hmax]
    · simp [hmax]

/-- C2 witness: Tourist successfully infecting the Hiker (same level)
with draw 0: the console stats variant keeps the player and bumps
sameLevelInfections, the first graphical variant keeps the player, and
the unnamed GUI variant reports Success. -/
theorem success_classification_witness :
    (attemptInfection (markInfected tourist) hiker playState.virus
        playState.stats 3 0).player = markInfected tourist
    ∧ (attemptInfection (markInfected tourist) hiker playState.virus
        playState.stats 3 0).stats.sameLevelInfections
        = playState.stats.sameLevelInfections + 1
    ∧ (infectButtonEvo playState (markInfected tourist) hiker 0).1.playerName
        = "Tourist"
    ∧ (infectHandler playState (markInfected tourist) hiker 0).2
        = Outcome.Success := by
  have h := success_classification (markInfected tourist) hiker
    playState.virus playState.stats 3 playState 0
    (by simp [hiker, playState]) (by simp [hiker]) rfl
  have h1 := h.1 (by simp [hiker, markInfected, tourist])
  have h7 := h.2.2.2.2.2.2.1 (by simp [hiker, markInfected, tourist])
  exact ⟨h1.1, h1.2.1, h7.trans rfl, h.2.2.1⟩

/-! Helper lemmas about the unnamed GUI variant state machine. -/

/-- Infecting a roster entry does not change the name sequence. -/
theorem updateAnimal_map_name (l : List Animal) (name : String) :
    (updateAnimal l name markInfected).map Animal.name
      = l.map Animal.name := by
  induction l with
  | nil => rfl
  | cons a l ih =>
    simp only [updateAnimal, List.map_cons] at ih ⊢
    by_cases h : (a.name == name) = true
    · rw [if_pos h, ih]
      simp [markInfected]
    · rw [if_neg h, ih]

/-- findAnimal returns a member carrying the looked-up name. -/
theorem findAnimal_mem {l : List Animal} {name : String} {a : Animal}
    (h : findAnimal l name = some a) : a ∈ l ∧ a.name = name := by
  refine ⟨List.mem_of_find?_eq_some h, ?_⟩
  have := List.find?_some h
  simpa using this

/-- With unique names, infecting the non-red-herring member `t` keeps
every red herring uninfected. -/
theorem updateAnimal_redHerringSafe {l : List Animal} {t : Animal}
    (hn : (l.map Animal.name).Nodup) (ht : t ∈ l)
    (hrh : t.redHerring = false)
    (hs : ∀ a ∈ l, a.redHerring = true → a.infected = false) :
    ∀ a ∈ updateAnimal l t.name markInfected,
      a.redHerring = true → a.infected = false := by
  intro b hb hbrh
  simp only [updateAnimal, List.mem_map] at hb
  obtain ⟨a, ha, rfl⟩ := hb
  by_cases hcase : (a.name == t.name) = true
  · have haeq : a = t :=
      List.inj_on_of_nodup_map hn ha ht (by simpa using hcase)
    subst haeq
    simp only [hcase, if_true, markInfected] at hbrh
    rw [hbrh] at hrh
    exact absurd hrh (by simp)
  · rw [if_neg hcase] at hbrh ⊢
    exact hs a ha hbrh

/-- The INFECT handler keeps names unique and red herrings uninfected. -/
theorem infectHandler_preserves (s : GameState) (player t : Animal) (r : ℚ)
    (hn : namesNodup s) (ht : t ∈ s.animals) :
    namesNodup (infectHandler s player t r).1
    ∧ (redHerringSafe s → redHerringSafe (infectHandler s player t r).1) := by
  unfold infectHandler
  by_cases h1 : t.redHerring = true
  · simp only [h1, if_true]
    exact ⟨hn, fun h => h⟩
  · rw [Bool.not_eq_true] at h1
    simp only [h1, Bool.false_eq_true, if_false]
    by_cases h2 : r < t.infectionRate * s.virus.strength
    · rw [if_pos h2]
      refine ⟨?_, ?_⟩
      · unfold namesNodup at hn ⊢
        simpa [updateAnimal_map_name] using hn
      · intro hs
        exact updateAnimal_redHerringSafe hn ht h1 hs
    · rw [if_neg h2]
      exact ⟨hn, fun h => h⟩

/-- A single accepted command keeps names unique and red herrings
uninfected. -/
theorem step_preserves {s s2 : GameState} {c : Cmd} (h : step s c = some s2)
    (hn : namesNodup s) :
    namesNodup s2 ∧ (redHerringSafe s → redHerringSafe s2) := by
  cases c with
  | chooseStarter name now =>
    simp only [step] at h
    split at h
    · split at h
      · rename_i a hfind
        split at h
        · split at h
          · exact absurd h (by simp)
          · rename_i hl hrh
            injection h with h
            subst h
            obtain ⟨ha, haname⟩ := findAnimal_mem hfind
            refine ⟨?_, ?_⟩
            · simp only [namesNodup] at hn ⊢
              rw [updateAnimal_map_name]
              exact hn
            · intro hs
              simp only [redHerringSafe] at hs ⊢
              intro b hb hbrh
              rw [← haname] at hb
              exact updateAnimal_redHerringSafe hn ha
                (by simpa using hrh) hs b hb hbrh
        · exact absurd h (by simp)
      · exact absurd h (by simp)
    · exact absurd h (by simp)
  | chooseTarget name r =>
    simp only [step] at h
    split at h
    · split at h
      · rename_i player t hfp hft
        split at h
        · injection h with h
          subst h
          exact infectHandler_preserves s player t r hn (findAnimal_mem hft).1
        · exact absurd h (by simp)
      · exact absurd h (by simp)
      · exact absurd h (by simp)
    · exact absurd h (by simp)
  | skipTurn =>
    simp only [step] at h
    split at h
    · injection h with h
      subst h
      exact ⟨hn, fun hh => hh⟩
    · exact absurd h (by simp)

/-- C4: starting from any state with unique roster names and no
infected red herring, every sequence of commands (starter choices,
INFECT clicks, skips) keeps every red herring uninfected; moreover a
red-herring starter choice is always rejected. -/
theorem red_herrings_never_infected (s : GameState) (cmds : List Cmd)
    (hn : namesNodup s) (hs : redHerringSafe s) :
    redHerringSafe (run s cmds)
    ∧ (∀ name now a, findAnimal s.animals name = some a →
        a.redHerring = true → step s (Cmd.chooseStarter name now) = none) := by
  constructor
  · induction cmds generalizing s with
    | nil => exact hs
    | cons c cs ih =>
      show redHerringSafe (run ((step s c).getD s) cs)
      cases hstep : step s c with
      | none => simpa [hstep] using ih s hn hs
      | some s1 =>
        obtain ⟨hn1, hs1⟩ := step_preserves hstep hn
        simpa [hstep] using ih s1 hn1 (hs1 hs)
  · intro name now a hfind hrh
    simp only [step, hfind]
    split
    · split
      · simp [hrh]
      · rfl
    · rfl

/-- C4 witness: from the freshly loaded game, choosing the Tourist and
then infecting the Hiker leaves every red herring uninfected, and the
Raven is rejected as a starter. -/
theorem red_herrings_never_infected_witness :
    redHerringSafe
      (run startState [Cmd.chooseStarter "Tourist" 5,
        Cmd.chooseTarget "Hiker" 0])
    ∧ step startState (Cmd.chooseStarter "Raven" 7) = none := by
  have h := red_herrings_never_infected startState
    [Cmd.chooseStarter "Tourist" 5, Cmd.chooseTarget "Hiker" 0]
    (by decide) (by decide)
  refine ⟨h.1, h.2 "Raven" 7 raven ?_ rfl⟩
  simp [findAnimal, startState, tourist, hiker, raven]

/-- The INFECT handler always bumps attempts by one and bumps the two
infection counters by at most one in total. -/
theorem infectHandler_counters (s : GameState) (player t : Animal)
    (r : ℚ) :
    (infectHandler s player t r).1.stats.attempts = s.stats.attempts + 1
    ∧ countersLe s.stats (infectHandler s player t r).1.stats
    ∧ (infectHandler s player t r).1.stats.sameLevelInfections
        + (infectHandler s player t r).1.stats.nextLevelInfections
      ≤ s.stats.sameLevelInfections + s.stats.nextLevelInfections + 1 := by
  unfold infectHandler countersLe
  split
  · simp
  · split
    · split <;> simp <;> omega
    · simp

/-- One accepted command never decreases the counters and preserves the
bound sameLevelInfections + nextLevelInfections ≤ attempts. -/
theorem step_counters {s s2 : GameState} {c : Cmd}
    (h : step s c = some s2) :
    countersLe s.stats s2.stats
    ∧ (s.stats.sameLevelInfections + s.stats.nextLevelInfections
          ≤ s.stats.attempts →
        s2.stats.sameLevelInfections + s2.stats.nextLevelInfections
          ≤ s2.stats.attempts) := by
  cases c with
  | chooseStarter name now =>
    simp only [step] at h
    split at h
    · split at h
      · split at h
        · split at h
          · exact absurd h (by simp)
          · injection h with h
            subst h
            exact ⟨⟨le_refl _, le_refl _, le_refl _⟩, fun hh => hh⟩
        · exact absurd h (by simp)
      · exact absurd h (by simp)
    · exact absurd h (by simp)
  | chooseTarget name r =>
    simp only [step] at h
    split at h
    · split at h
      · rename_i player t hfp hft
        split at h
        · injection h with h
          subst h
          obtain ⟨hatt, hle, hsum⟩ := infectHandler_counters s player t r
          refine ⟨hle, fun hh => ?_⟩
          omega
        · exact absurd h (by simp)
      · exact absurd h (by simp)
      · exact absurd h (by simp)
    · exact absurd h (by simp)
  | skipTurn =>
    simp only [step] at h
    split at h
    · injection h with h
      subst h
      exact ⟨⟨le_refl _, le_refl _, le_refl _⟩, fun hh => hh⟩
    · exact absurd h (by simp)

/-- C7: across every run, attempts, sameLevelInfections and
nextLevelInfections never decrease, and whenever the run starts with
sameLevelInfections + nextLevelInfections ≤ attempts (as the fresh
all-zero tracker does), that bound holds at every point. -/
theorem counters_monotone_bounded (s : GameState) (cmds : List Cmd)
    (hsum : s.stats.sameLevelInfections + s.stats.nextLevelInfections
      ≤ s.stats.attempts) :
    countersLe s.stats (run s cmds).stats
    ∧ (run s cmds).stats.sameLevelInfections
        + (run s cmds).stats.nextLevelInfections
      ≤ (run s cmds).stats.attempts := by
  induction cmds generalizing s with
  | nil => exact ⟨⟨le_refl _, le_refl _, le_refl _⟩, hsum⟩
  | cons c cs ih =>
    simp only [run]
    cases hstep : step s c with
    | none => simpa [hstep] using ih s hsum
    | some s1 =>
      obtain ⟨hle1, hsum1⟩ := step_counters hstep
      obtain ⟨hle2, hsum2⟩ := ih s1 (hsum1 hsum)
      simp only [hstep, Option.getD_some]
      refine ⟨?_, hsum2⟩
      obtain ⟨a1, b1, c1⟩ := hle1
      obtain ⟨a2, b2, c2⟩ := hle2
      exact ⟨le_trans a1 a2, le_trans b1 b2, le_trans c1 c2⟩

/-- C7 witness: from the fresh game, choosing the Tourist and clicking
INFECT on the Bison keeps the counters monotone and bounded by
attempts. -/
theorem counters_monotone_bounded_witness :
    countersLe startState.stats
      (run startState [Cmd.chooseStarter "Tourist" 5,
        Cmd.chooseTarget "Bison" 0]).stats
    ∧ (run startState [Cmd.chooseStarter "Tourist" 5,
        Cmd.chooseTarget "Bison" 0]).stats.sameLevelInfections
        + (run startState [Cmd.chooseStarter "Tourist" 5,
            Cmd.chooseTarget "Bison" 0]).stats.nextLevelInfections
      ≤ (run startState [Cmd.chooseStarter "Tourist" 5,
          Cmd.chooseTarget "Bison" 0]).stats.attempts :=
  counters_monotone_bounded startState
    [Cmd.chooseStarter "Tourist" 5, Cmd.chooseTarget "Bison" 0]
    (by decide)

/-- In the Won phase every command is rejected: the win screen has no
starter, INFECT or skip control. -/
theorem step_won_none (s : GameState) (hw : s.phase = Phase.Won) (c : Cmd) :
    step s c = none := by
  cases c <;> simp [step, hw]

/-- From the Won phase, any command sequence leaves the state
untouched. -/
theorem run_won_fixed (s : GameState) (hw : s.phase = Phase.Won)
    (cmds : List Cmd) : run s cmds = s := by
  induction cmds with
  | nil => rfl
  | cons c cs ih => simp [run, step_won_none s hw c, ih]

/-- C8: a successful next-level infection of a host at the apex level
moves the unnamed GUI variant to the terminal Won phase, and from the
Won phase no further ChooseTarget or SkipTurn command is accepted or
mutates the state (any further run leaves the state identical). -/
theorem apex_win_terminal :
    (∀ (s : GameState) (player t : Animal) (r : ℚ),
      t.redHerring = false →
      r < t.infectionRate * s.virus.strength →
      player.level < t.level →
      t.level = s.maxLevel →
      (infectHandler s player t r).2 = Outcome.Success
        ∧ (infectHandler s player t r).1.phase = Phase.Won)
    ∧ (∀ s : GameState, s.phase = Phase.Won →
      (∀ name r, step s (Cmd.chooseTarget name r) = none)
        ∧ step s Cmd.skipTurn = none
        ∧ ∀ cmds : List Cmd, run s cmds = s) := by
  constructor
  · intro s player t r hrh hsucc hup happex
    simp [infectHandler, hrh, if_pos hsucc, happex]
  · intro s hw
    exact ⟨fun name r => step_won_none s hw (Cmd.chooseTarget name r),
      step_won_none s hw Cmd.skipTurn,
      fun cmds => run_won_fixed s hw cmds⟩

/-- C8 witness: infecting the Wolf (level 3, the apex) from the play
state succeeds and reaches Won, and from a Won state the INFECT and
skip commands are rejected. -/
theorem apex_win_terminal_witness :
    (infectHandler playState (markInfected tourist) wolf 0).2
        = Outcome.Success
    ∧ (infectHandler playState (markInfected tourist) wolf 0).1.phase
        = Phase.Won
    ∧ step { playState with phase := Phase.Won }
        (Cmd.chooseTarget "Bison" 0) = none
    ∧ step { playState with phase := Phase.Won } Cmd.skipTurn = none :=
  ⟨(apex_win_terminal.1 playState (markInfected tourist) wolf 0 rfl
      (by simp [wolf, playState]) (by simp [markInfected, tourist, wolf])
      rfl).1,
   (apex_win_terminal.1 playState (markInfected tourist) wolf 0 rfl
      (by simp [wolf, playState]) (by simp [markInfected, tourist, wolf])
      rfl).2,
   (apex_win_terminal.2 { playState with phase := Phase.Won } rfl).1
      "Bison" 0,
   (apex_win_terminal.2 { playState with phase := Phase.Won } rfl).2.1⟩

end Rawr
